import Mathlib

/-!
Verification of the support-desk assistant's retrieval-augmented decision
pipeline.  The definitions below are a shallow embedding of the Python
sources:

* `app/schemas/prompts.py`   — `PromptValidator.validate_rag_response`,
  `RagPrompts.build_user_prompt`
* `app/infrastructure/clients/openai_client.py` — the parse/validate/fallback
  tail of `OpenAIClient.generate_rag_response`
* `app/core/services/rag_service.py` — `RagService.answer`
* `app/core/workflows/ticket_workflow.py` — `TicketAgentService.process_ticket`
* `app/infrastructure/repositories/ticket_repository.py` — `create_ticket`,
  `get_ticket`, `update_ticket_feedback`
* `app/schemas/requests.py` — request validators

Python values flowing through the pipeline are modelled by a `Json` type;
Python exceptions (TypeError, upstream failures) are modelled by
`Except Unit`.  External collaborators (the vector store, the OpenAI chat
endpoint, the standard-library JSON parser pinned to its parse outcome)
enter as parameters.  All string primitives are re-implemented structurally
over `List Char` so that every definition kernel-evaluates on concrete input.
-/

namespace SupportDesk

/-- A parsed Python/JSON value, as produced by `json.loads`:
`None`, `bool`, numbers, `str`, `list`, `dict`.
(Objects produced by `json.loads` have unique keys, so an association
list with first-match lookup models a Python dict.) -/
inductive Json where
  | null
  | bool (b : Bool)
  | num (n : Int)
  | str (s : String)
  | arr (elems : List Json)
  | obj (fields : List (String × Json))

/-- Python `isinstance(x, str)`. -/
def Json.isStr : Json → Bool
  | .str _ => true
  | _ => false

/-- Python `isinstance(x, list)`. -/
def Json.isArr : Json → Bool
  | .arr _ => true
  | _ => false

/-- Python `x == s` for a string literal `s`: equal only when `x` is the same
string; values of other types never compare equal to a `str`. -/
def jsonEqStr (x : Json) (s : String) : Bool :=
  match x with
  | .str t => t == s
  | _ => false

/-- Lookup in a parsed JSON object (a Python dict). -/
def dictLookup (kvs : List (String × Json)) (k : String) : Option Json :=
  match kvs with
  | [] => none
  | (k', v) :: rest => if k' == k then some v else dictLookup rest k

/-- Does `pat` occur at the head of `s`?  (Helper for Python's `in` on strings.) -/
def startsWithChars : List Char → List Char → Bool
  | [], _ => true
  | _ :: _, [] => false
  | a :: pat, b :: s => a == b && startsWithChars pat s

/-- Contiguous-substring test over characters (Python `pat in s` for strings). -/
def containsChars (pat : List Char) : List Char → Bool
  | [] => startsWithChars pat []
  | c :: rest => startsWithChars pat (c :: rest) || containsChars pat rest

/-- Python `pat in s` for strings: contiguous substring containment. -/
def pyIn (pat s : String) : Bool := containsChars pat.toList s.toList

/-- Python `s.strip()` (whitespace stripped from both ends), implemented
structurally so it evaluates in the kernel. -/
def pyStrip (s : String) : String :=
  ⟨((s.toList.dropWhile Char.isWhitespace).reverse.dropWhile Char.isWhitespace).reverse⟩

/-- Python `field in response` for a parsed JSON value `response`:
key membership for dicts, element equality for lists, substring test for
strings; a `TypeError` (modelled as `Except.error ()`) for `None`, booleans
and numbers. -/
def pyContains (response : Json) (field : String) : Except Unit Bool :=
  match response with
  | .obj kvs => .ok (dictLookup kvs field).isSome
  | .arr xs => .ok (xs.any (fun x => jsonEqStr x field))
  | .str s => .ok (pyIn field s)
  | _ => .error ()

/-- Python `response[field]` for a parsed JSON value: dict indexing; a
`TypeError` for strings or lists indexed by a string, and for scalars.
(A missing key would be a `KeyError`, also modelled as `Except.error ()`;
the source only indexes after a successful membership test.) -/
def pyIndex (response : Json) (field : String) : Except Unit Json :=
  match response with
  | .obj kvs =>
    match dictLookup kvs field with
    | some v => .ok v
    | none => .error ()
  | _ => .error ()

/-- Python `x in ["high", "medium", "low"]` for a parsed JSON value `x`. -/
def confOk (x : Json) : Bool :=
  jsonEqStr x "high" || jsonEqStr x "medium" || jsonEqStr x "low"

/-- Embedding of `PromptValidator.validate_rag_response`
(`app/schemas/prompts.py`, lines 119-144).  Returns `.ok b` when the
Python function returns `b`, and `.error ()` when it raises (a `TypeError`
escaping from `in` or `[...]` on an unsuitable parsed value):

    required_fields = ["answer", "tags", "confidence"]
    if not all(field in response for field in required_fields): return False
    if not isinstance(response["answer"], str): return False
    if not isinstance(response["tags"], list): return False
    if response["confidence"] not in ["high", "medium", "low"]: return False
    return True
-/
def validate_rag_response (response : Json) : Except Unit Bool :=
  match pyContains response "answer" with
  | .error e => .error e
  | .ok false => .ok false
  | .ok true =>
    match pyContains response "tags" with
    | .error e => .error e
    | .ok false => .ok false
    | .ok true =>
      match pyContains response "confidence" with
      | .error e => .error e
      | .ok false => .ok false
      | .ok true =>
        match pyIndex response "answer" with
        | .error e => .error e
        | .ok ans =>
          if !ans.isStr then .ok false
          else
            match pyIndex response "tags" with
            | .error e => .error e
            | .ok tg =>
              if !tg.isArr then .ok false
              else
                match pyIndex response "confidence" with
                | .error e => .error e
                | .ok cf => .ok (confOk cf)

/-- Declarative characterisation of the shape `validate_rag_response`
accepts: an object with the three keys present, `answer` a string, `tags`
a list (element types are NOT checked), `confidence` one of the three
enumerated strings. -/
def validShape (j : Json) : Bool :=
  match j with
  | .obj kvs =>
    match dictLookup kvs "answer", dictLookup kvs "tags", dictLookup kvs "confidence" with
    | some a, some t, some c => a.isStr && t.isArr && confOk c
    | _, _, _ => false
  | _ => false

/-- Declarative characterisation of the parsed values on which
`validate_rag_response` raises `TypeError`: scalars (numbers, booleans,
`None`), lists containing all three field names as elements, and strings
containing all three field names as substrings. -/
def raisesValidation (j : Json) : Bool :=
  match j with
  | .obj _ => false
  | .arr xs =>
    xs.any (fun x => jsonEqStr x "answer") && xs.any (fun x => jsonEqStr x "tags") &&
      xs.any (fun x => jsonEqStr x "confidence")
  | .str s => pyIn "answer" s && pyIn "tags" s && pyIn "confidence" s
  | _ => true

/-- The spec's well-formedness condition on a parsed generator response
(stated from the spec's words, for comparison with the code's `validShape`):
an object with `answer` a string, `tags` a sequence of STRINGS, and
`confidence` one of `high`/`medium`/`low`. -/
def wellFormedRag (j : Json) : Bool :=
  match j with
  | .obj kvs =>
    match dictLookup kvs "answer", dictLookup kvs "tags", dictLookup kvs "confidence" with
    | some a, some (.arr ts), some c => a.isStr && ts.all Json.isStr && confOk c
    | _, _, _ => false
  | _ => false

/-- The fallback result built by `OpenAIClient.generate_rag_response`:
`{"answer": response_text, "tags": [], "confidence": "low"}`. -/
def fallbackResult (raw : String) : Json :=
  .obj [("answer", .str raw), ("tags", .arr []), ("confidence", .str "low")]

/-- Embedding of the parse/validate/fallback tail of
`OpenAIClient.generate_rag_response` (`openai_client.py`, lines 121-143).
`parsed` is the outcome of the external `json.loads(response_text)`
(`.error ()` for a `json.JSONDecodeError`), `raw` is `response_text`:

    try:
        result = json.loads(response_text)
        if PromptValidator.validate_rag_response(result): return result
        else: return {"answer": response_text, "tags": [], "confidence": "low"}
    except json.JSONDecodeError:
        return {"answer": response_text, "tags": [], "confidence": "low"}

Only `JSONDecodeError` is caught: a `TypeError` raised inside
`validate_rag_response` propagates. -/
def generate_rag_response_post (parsed : Except Unit Json) (raw : String) : Except Unit Json :=
  match parsed with
  | .error _ => .ok (fallbackResult raw)
  | .ok result =>
    match validate_rag_response result with
    | .error e => .error e
    | .ok true => .ok result
    | .ok false => .ok (fallbackResult raw)

/-- Embedding of `RagPrompts.build_user_prompt` (`app/schemas/prompts.py`,
lines 93-113): the f-string

    Context from knowledge base:
    {context}{conversation_context}

    User Question: {query}

    Remember: Respond ONLY with valid JSON containing answer, tags, and confidence.

where `conversation_context` is the `Previous conversation context` section
when `conversation_summary` is non-empty (Python truthiness) and the empty
string otherwise. -/
def build_user_prompt (context query : String) (conversation_summary : String := "") : String :=
  let conversation_context :=
    if conversation_summary ≠ "" then
      "\n\nPrevious conversation context:\n" ++ conversation_summary
    else ""
  "Context from knowledge base:\n" ++ context ++ conversation_context ++
    "\n\nUser Question: " ++ query ++
    "\n\nRemember: Respond ONLY with valid JSON containing answer, tags, and confidence."

/-- One hit returned by `VectorStoreClient.query_similar`, flattened to the
fields the pipeline reads: `text` is `match.get("metadata", {}).get("text", "")`
(so a missing metadata text is the empty string). -/
structure MatchRec where
  id : String
  score : Int
  text : String
deriving DecidableEq

/-- The context-chunk loop of `RagService.answer`
(`app/core/services/rag_service.py`, lines 63-67), carrying the running
1-based `enumerate` counter:

    for idx, match in enumerate(matches, 1):
        text = match.get("metadata", {}).get("text", "")
        if text:
            context_chunks.append(f"Document {idx}:\n{text}")
-/
def contextChunksAux (idx : Nat) : List MatchRec → List String
  | [] => []
  | m :: rest =>
    if m.text ≠ "" then ("Document " ++ toString idx ++ ":\n" ++ m.text) :: contextChunksAux (idx + 1) rest
    else contextChunksAux (idx + 1) rest

/-- `context_chunks` as built by `RagService.answer` (enumeration starts at 1). -/
def contextChunks (ms : List MatchRec) : List String :=
  contextChunksAux 1 ms

/-- The context string built in `OpenAIClient.generate_rag_response`:
`context = "\n\n".join(context_chunks)`. -/
def contextOf (ms : List MatchRec) : String :=
  String.intercalate "\n\n" (contextChunks ms)

/-- The user prompt `generate_rag_response` hands to the chat endpoint for a
given match list and query (the fixed system prompt accompanies it and is
not modelled: no claim depends on its content). -/
def userPromptOf (ms : List MatchRec) (query : String) : String :=
  build_user_prompt (contextOf ms) query

/-- Python `dict.get(k, d)` on a parsed JSON object.  In this pipeline it is
only reached with an object (`validate_rag_response` accepts only objects
and the fallback builds one); other values take the default branch. -/
def dictGetD (j : Json) (k : String) (d : Json) : Json :=
  match j with
  | .obj kvs => (dictLookup kvs k).getD d
  | _ => d

/-- The dictionary `RagService.answer` returns (minus the formatting of
`sources`, which keeps the raw matches). -/
structure RagAnswer where
  answer : Json
  tags : Json
  confidence : Json
  sources : List MatchRec

/-- Embedding of `RagService.answer` (`rag_service.py`, lines 44-91).
`matchesOutcome` is the outcome of the external retriever call
`self._vectorstore.query_similar(query, top_k)` (`.error ()` when the
retriever raises); `gen` maps the built user prompt to the outcome of the
external chat-completion call, paired with the `json.loads` outcome on its
raw text (`.error ()` when the generator raises).  Any raise propagates. -/
def ragAnswerE (matchesOutcome : Except Unit (List MatchRec))
    (gen : String → Except Unit (String × Except Unit Json)) (query : String) :
    Except Unit RagAnswer :=
  match matchesOutcome with
  | .error e => .error e
  | .ok ms =>
    match gen (userPromptOf ms query) with
    | .error e => .error e
    | .ok (raw, parsed) =>
      match generate_rag_response_post parsed raw with
      | .error e => .error e
      | .ok result =>
        .ok { answer := dictGetD result "answer" (.str ""),
              tags := dictGetD result "tags" (.arr []),
              confidence := dictGetD result "confidence" (.str "low"),
              sources := ms }

/-- A row of the `tickets` table (`app/infrastructure/db/models.py`).
`created_at` is the store-assigned insert timestamp (`func.now()`),
modelled as the clock value passed to `create_ticket`. -/
structure TicketRow where
  id : Nat
  text : String
  action : Option String
  reply : Option String
  tags : Option String
  reason : Option String
  created_at : Nat
  human_label : Option String
deriving DecidableEq

/-- The ticket store: the list of persisted rows.  The store assigns ids
monotonically (`id = rows.length + 1` models the autoincrement primary key). -/
structure Store where
  rows : List TicketRow
deriving DecidableEq

/-- Python `",".join(tags)`: every element must be a string, otherwise a
`TypeError` is raised. -/
def pyStrList : List Json → Except Unit (List String)
  | [] => .ok []
  | .str s :: rest =>
    match pyStrList rest with
    | .error e => .error e
    | .ok ss => .ok (s :: ss)
  | _ :: _ => .error ()

/-- Embedding of `ticket_repository.create_ticket` (lines 15-54):

    tags_str = ",".join(tags) if tags is not None else None
    ticket = Ticket(text=..., action=..., reply=..., tags=tags_str, reason=..., human_label=...)
    db.add(ticket); db.commit(); db.refresh(ticket)

`tags` elements are kept as parsed values (`Json`) because callers pass the
generator's tag list through untyped; the join raises on non-strings, before
anything is added to the store.  `now` is the store clock at insert. -/
def create_ticket (db : Store) (now : Nat) (text : String) (action reply : Option String)
    (tags : Option (List Json)) (reason human_label : Option String) :
    Except Unit (TicketRow × Store) :=
  match tags with
  | none =>
    let row : TicketRow :=
      { id := db.rows.length + 1, text := text, action := action, reply := reply,
        tags := none, reason := reason, created_at := now, human_label := human_label }
    .ok (row, ⟨db.rows ++ [row]⟩)
  | some ts =>
    match pyStrList ts with
    | .error e => .error e
    | .ok ss =>
      let row : TicketRow :=
        { id := db.rows.length + 1, text := text, action := action, reply := reply,
          tags := some (String.intercalate "," ss), reason := reason,
          created_at := now, human_label := human_label }
      .ok (row, ⟨db.rows ++ [row]⟩)

/-- Embedding of `ticket_repository.get_ticket` (lines 57-68): first row with
the given primary key, if any. -/
def get_ticket (db : Store) (ticket_id : Nat) : Option TicketRow :=
  db.rows.find? (fun r => r.id == ticket_id)

/-- Embedding of `ticket_repository.update_ticket_feedback` (lines 130-156):
fetch the ticket; on `None` return `None` (nothing committed); otherwise set
only `human_label` and commit. -/
def update_ticket_feedback (db : Store) (ticket_id : Nat) (human_label : String) :
    Option TicketRow × Store :=
  match get_ticket db ticket_id with
  | none => (none, db)
  | some t =>
    (some { t with human_label := some human_label },
     ⟨db.rows.map (fun r => if r.id == ticket_id then { r with human_label := some human_label } else r)⟩)

/-- The decision portion of `TicketAgentService.process_ticket`
(`ticket_workflow.py`, lines 80-89):

    if answer and answer.strip() and "INSUFFICIENT_CONTEXT" not in answer:
        action, reason = "reply", "Generated reply using knowledge base context via RAG."
    else:
        action = "escalate"
        if "INSUFFICIENT_CONTEXT" in answer:
            reason = "Knowledge base lacks sufficient information; escalating to human agent."
        else:
            reason = "Could not generate automated reply; escalating to human agent."

Note the `in` test is substring containment, not an equality test. -/
def decideAction (answer : String) : String × String :=
  if answer ≠ "" ∧ pyStrip answer ≠ "" ∧ pyIn "INSUFFICIENT_CONTEXT" answer = false then
    ("reply", "Generated reply using knowledge base context via RAG.")
  else
    ("escalate",
      if pyIn "INSUFFICIENT_CONTEXT" answer then
        "Knowledge base lacks sufficient information; escalating to human agent."
      else
        "Could not generate automated reply; escalating to human agent.")

/-- The dictionary `process_ticket` returns. -/
structure ProcessResult where
  id : Nat
  action : Option String
  reply : Option String
  tags : List Json
  reason : Option String

/-- Embedding of `TicketAgentService.process_ticket`
(`ticket_workflow.py`, lines 44-109).  The store is threaded explicitly so
that a propagating raise leaves it visibly unchanged:

    rag_result = self._rag_service.answer(text)
    answer = rag_result.get("answer", "")
    tags = rag_result.get("tags", [])
    if not isinstance(tags, list): tags = []
    ... decision ...
    ticket = ticket_repository.create_ticket(db=db, text=text, action=action,
        reply=answer if action == "reply" else None, tags=tags, reason=reason, human_label=None)
    return {"id": ticket.id, "action": ticket.action, "reply": ticket.reply,
            "tags": tags, "reason": ticket.reason}

The `answer` produced by `ragAnswerE` is always a string (validated or
fallback); the non-string branch models the `AttributeError` that
`answer.strip()` would raise otherwise and is unreachable. -/
def process_ticket (db : Store) (now : Nat) (text : String)
    (matchesOutcome : Except Unit (List MatchRec))
    (gen : String → Except Unit (String × Except Unit Json)) :
    Except Unit ProcessResult × Store :=
  match ragAnswerE matchesOutcome gen text with
  | .error e => (.error e, db)
  | .ok rag =>
    match rag.answer with
    | .str answer =>
      let tags : List Json := match rag.tags with | .arr xs => xs | _ => []
      let decision := decideAction answer
      match create_ticket db now text (some decision.1)
          (if decision.1 = "reply" then some answer else none)
          (some tags) (some decision.2) none with
      | .error e => (.error e, db)
      | .ok (row, db') =>
        (.ok { id := row.id, action := row.action, reply := row.reply,
               tags := tags, reason := row.reason }, db')
    | _ => (.error (), db)

/-- Embedding of the `RagQueryRequest.query_must_not_be_empty` field
validator (`app/schemas/requests.py`, lines 22-27):

    if not v or not v.strip(): raise ValueError("Query cannot be empty or whitespace")
    return v.strip()
-/
def query_must_not_be_empty (v : String) : Except String String :=
  if v = "" ∨ pyStrip v = "" then .error "Query cannot be empty or whitespace"
  else .ok (pyStrip v)

/-- Boundary validation of `TicketAgentRequest.ticket`
(`app/schemas/requests.py`, lines 34-38): the schema declares `ticket: str`
with NO content validator, so any string is accepted unchanged. -/
def ticket_request_validate (ticket : String) : Except String String :=
  .ok ticket

/-- One turn of conversation history (`ConversationMessage` in
`app/schemas/requests.py`): a (role, content) pair, role ∈ {user, assistant}. -/
structure ConversationTurn where
  role : String
  content : String
deriving DecidableEq

/-- Modelled from the spec: §4.1 history budgeting — the conversation-history
handling is absent from `src` (the `generate_rag_response` and
`RagService.answer` under `src` accept no `conversation_history`; only their
tests and the `rag_query` endpoint refer to it).  Per the spec, each included
turn's content is capped at 150 characters, with an ellipsis marker appended
when cut. -/
def truncateTurnContent (content : String) : String :=
  if content.length > 150 then String.mk (content.toList.take 150) ++ "..." else content

/-- Modelled from the spec: §4.1 — a history turn rendered into the
conversation summary, `User:`/`Assistant:` prefixes as exercised by the
repository's tests, content capped at 150 characters. -/
def formatTurn (t : ConversationTurn) : String :=
  (if t.role == "user" then "User: " else "Assistant: ") ++ truncateTurnContent t.content

/-- Modelled from the spec: §4.1 history budgeting — only the most recent 6
turns are included; older turns are dropped silently (oldest-first
truncation). -/
def recentTurns (history : List ConversationTurn) : List ConversationTurn :=
  history.drop (history.length - 6)

/-- Modelled from the spec: §4.1 — the flattened conversation summary placed
into the prompt: the formatted recent turns, one per line. -/
def build_conversation_summary (history : List ConversationTurn) : String :=
  String.intercalate "\n" ((recentTurns history).map formatTurn)

/-- Modelled from the spec: §4.1 — the user prompt for a query with optional
conversation history: the summary of the recent turns is passed to
`build_user_prompt` (an absent history yields an empty summary and hence no
history section). -/
def user_prompt_with_history (context query : String)
    (history : Option (List ConversationTurn)) : String :=
  build_user_prompt context query
    (match history with
     | none => ""
     | some h => build_conversation_summary h)

/-- The context assembly as the spec's words describe it (for comparison
with the code's `contextChunks`): EVERY passage is rendered as a labeled
block `Document i:` followed by its content, in retrieval order. -/
def specContextBlocks (ms : List MatchRec) : List String :=
  ms.enum.map (fun p => "Document " ++ toString (p.1 + 1) ++ ":\n" ++ p.2.text)

/-! Helper lemmas. -/

/-- A shape accepted by the validator is an object, and validation of an
object never raises. -/
theorem validShape_no_raise (j : Json) (h : validShape j = true) :
    raisesValidation j = false := by
  cases j <;> simp [validShape] at h <;> rfl

/-- Full characterisation of `validate_rag_response`: it raises exactly on
`raisesValidation` and otherwise returns the boolean `validShape`. -/
theorem validate_rag_response_eq (j : Json) :
    validate_rag_response j =
      if raisesValidation j then .error () else .ok (validShape j) := by
  cases j with
  | null => rfl
  | bool b => rfl
  | num n => rfl
  | str s =>
    simp only [validate_rag_response, pyContains, pyIndex, raisesValidation, validShape]
    cases h1 : pyIn "answer" s <;> cases h2 : pyIn "tags" s <;>
      cases h3 : pyIn "confidence" s <;> simp
  | arr xs =>
    simp only [validate_rag_response, pyContains, pyIndex, raisesValidation, validShape]
    cases h1 : xs.any (fun x => jsonEqStr x "answer") <;>
      cases h2 : xs.any (fun x => jsonEqStr x "tags") <;>
      cases h3 : xs.any (fun x => jsonEqStr x "confidence") <;> simp
  | obj kvs =>
    simp only [validate_rag_response, pyContains, pyIndex, raisesValidation, validShape]
    cases ha : dictLookup kvs "answer" <;> cases ht : dictLookup kvs "tags" <;>
      cases hc : dictLookup kvs "confidence" <;> simp [Option.isSome] <;>
      cases hsa : Json.isStr _ <;> simp [hsa] <;> rename_i a t c <;>
      cases hta : Json.isArr t <;> simp [hta]

/-- A response that is well-formed in the spec's sense is accepted by the
code's validator (and validating it cannot raise). -/
theorem wellFormed_validShape (j : Json) (h : wellFormedRag j = true) :
    validShape j = true := by
  cases j <;> simp [wellFormedRag] at h
  rename_i kvs
  simp only [validShape]
  cases ha : dictLookup kvs "answer" <;> rw [ha] at h <;>
    cases ht : dictLookup kvs "tags" <;> rw [ht] at h <;>
    cases hc : dictLookup kvs "confidence" <;> rw [hc] at h <;> simp at h ⊢
  rename_i a t c
  cases t <;> simp at h ⊢
  exact ⟨⟨h.1.1, rfl⟩, h.2⟩

/-! Claim theorems. -/

/-- Claim C2, counterexample: the raw text parsing to the object
`{"answer": "a", "tags": [1], "confidence": "low"}` fails the claim's parse
condition (its tags are not a sequence of strings), yet the
validator/parser returns the object unchanged instead of the fallback
`{answer: raw text, tags: [], confidence: low}`. -/
theorem ticket_c2_counterexample :
    wellFormedRag (Json.obj [("answer", Json.str "a"), ("tags", Json.arr [Json.num 1]),
        ("confidence", Json.str "low")]) = false ∧
    generate_rag_response_post
        (.ok (Json.obj [("answer", Json.str "a"), ("tags", Json.arr [Json.num 1]),
          ("confidence", Json.str "low")])) "raw"
      = .ok (Json.obj [("answer", Json.str "a"), ("tags", Json.arr [Json.num 1]),
          ("confidence", Json.str "low")]) ∧
    Json.obj [("answer", Json.str "a"), ("tags", Json.arr [Json.num 1]),
        ("confidence", Json.str "low")] ≠ fallbackResult "raw" := by
  refine ⟨rfl, rfl, ?_⟩
  intro h
  simp [fallbackResult] at h

/-- Claim C2 (amended): the parser/validator returns the fallback
`{answer: raw text verbatim, tags: [], confidence: low}` exactly when JSON
parsing fails or the parsed value fails validation without raising; the
validator checks only that `tags` is a list (element types are unchecked,
so an object whose tags contain non-strings is returned unchanged, see the
counterexample), and on parsed values where Python's membership test or
indexing is a type error (top-level numbers, booleans, null, or
strings/lists containing all three field names) a `TypeError` propagates
instead of the fallback being returned. -/
theorem ticket_c2_amended (j : Json) (raw : String) :
    (generate_rag_response_post (.error ()) raw = .ok (fallbackResult raw)) ∧
    (validShape j = true → generate_rag_response_post (.ok j) raw = .ok j) ∧
    (validShape j = false → raisesValidation j = false →
      generate_rag_response_post (.ok j) raw = .ok (fallbackResult raw)) ∧
    (raisesValidation j = true → generate_rag_response_post (.ok j) raw = .error ()) := by
  refine ⟨rfl, ?_, ?_, ?_⟩
  · intro h
    simp [generate_rag_response_post, validate_rag_response_eq, validShape_no_raise j h, h]
  · intro h1 h2
    simp [generate_rag_response_post, validate_rag_response_eq, h1, h2]
  · intro h
    simp [generate_rag_response_post, validate_rag_response_eq, h]

/-- Witness for C2 (amended): the raw text parsing to the number `5` makes
the validator raise, and the raw text parsing to the string `"no"` yields
the fallback. -/
theorem ticket_c2_witness :
    generate_rag_response_post (.ok (Json.num 5)) "r" = .error () ∧
    generate_rag_response_post (.ok (Json.str "no")) "r" = .ok (fallbackResult "r") :=
  ⟨(ticket_c2_amended (Json.num 5) "r").2.2.2 rfl,
   (ticket_c2_amended (Json.str "no") "r").2.2.1 rfl rfl⟩

/-- Claim C4 (validator fidelity), confirmed: every raw generator text that
parses as a well-formed object — `answer` a string, `tags` a sequence of
strings, `confidence` one of high/medium/low — is returned by the
validator/parser exactly as parsed, unchanged. -/
theorem ticket_c4 (j : Json) (raw : String) (h : wellFormedRag j = true) :
    generate_rag_response_post (.ok j) raw = .ok j := by
  have hs := wellFormed_validShape j h
  simp [generate_rag_response_post, validate_rag_response_eq, validShape_no_raise j hs, hs]

/-- Witness for C4: a concrete well-formed response object is returned
unchanged. -/
theorem ticket_c4_witness :
    wellFormedRag (Json.obj [("answer", Json.str "Go to Settings."),
        ("tags", Json.arr [Json.str "password-reset"]), ("confidence", Json.str "high")]) = true ∧
    generate_rag_response_post
        (.ok (Json.obj [("answer", Json.str "Go to Settings."),
          ("tags", Json.arr [Json.str "password-reset"]), ("confidence", Json.str "high")])) "r"
      = .ok (Json.obj [("answer", Json.str "Go to Settings."),
          ("tags", Json.arr [Json.str "password-reset"]), ("confidence", Json.str "high")]) :=
  ⟨rfl, ticket_c4 _ "r" rfl⟩

/-- Claim C1, counterexample: the answer `"Sorry, INSUFFICIENT_CONTEXT."`
does not equal the sentinel after trimming and is non-empty after trimming,
so the claim's decision policy would reply; the code escalates, because its
test is substring containment (`"INSUFFICIENT_CONTEXT" not in answer`), not
an exact match. -/
theorem ticket_c1_counterexample :
    pyStrip "Sorry, INSUFFICIENT_CONTEXT." ≠ "INSUFFICIENT_CONTEXT" ∧
    pyStrip "Sorry, INSUFFICIENT_CONTEXT." ≠ "" ∧
    decideAction "Sorry, INSUFFICIENT_CONTEXT." =
      ("escalate", "Knowledge base lacks sufficient information; escalating to human agent.") := by
  refine ⟨by decide, by decide, ?_⟩
  rfl

/-- Claim C1 (amended): the decision policy of `process_ticket` tests the
sentinel by substring containment, not exact match after trimming — if the
answer CONTAINS `"INSUFFICIENT_CONTEXT"` anywhere, the action is escalate
with the insufficient-knowledge reason; else if the answer trims to empty,
the action is escalate with the could-not-generate reason; otherwise the
action is reply. -/
theorem ticket_c1 (answer : String) :
    (pyIn "INSUFFICIENT_CONTEXT" answer = true →
      decideAction answer =
        ("escalate", "Knowledge base lacks sufficient information; escalating to human agent.")) ∧
    (pyIn "INSUFFICIENT_CONTEXT" answer = false → pyStrip answer = "" →
      decideAction answer =
        ("escalate", "Could not generate automated reply; escalating to human agent.")) ∧
    (pyIn "INSUFFICIENT_CONTEXT" answer = false → pyStrip answer ≠ "" →
      decideAction answer =
        ("reply", "Generated reply using knowledge base context via RAG.")) := by
  refine ⟨?_, ?_, ?_⟩
  · intro h
    simp [decideAction, h]
  · intro h1 h2
    simp [decideAction, h1, h2]
  · intro h1 h2
    have hne : answer ≠ "" := by
      intro he
      subst he
      exact h2 rfl
    simp [decideAction, h1, h2, hne]

/-- Witness for C1 (amended): the three branches at concrete answers. -/
theorem ticket_c1_witness :
    decideAction "INSUFFICIENT_CONTEXT" =
      ("escalate", "Knowledge base lacks sufficient information; escalating to human agent.") ∧
    decideAction "   " =
      ("escalate", "Could not generate automated reply; escalating to human agent.") ∧
    decideAction "All good." =
      ("reply", "Generated reply using knowledge base context via RAG.") :=
  ⟨(ticket_c1 "INSUFFICIENT_CONTEXT").1 (by decide),
   (ticket_c1 "   ").2.1 (by decide) (by decide),
   (ticket_c1 "All good.").2.2 (by decide) (by decide)⟩

/-- Claim C3 (atomicity), confirmed: when the retriever raises, or the
generator raises on the prompt built for the retrieved matches, the
orchestrator's store is unchanged (no row is created — `create_ticket` is
never reached) and the failure propagates to the caller. -/
theorem ticket_c3 (db : Store) (now : Nat) (text : String)
    (gen : String → Except Unit (String × Except Unit Json)) (ms : List MatchRec) :
    (process_ticket db now text (.error ()) gen = (.error (), db)) ∧
    (gen (userPromptOf ms text) = .error () →
      process_ticket db now text (.ok ms) gen = (.error (), db)) := by
  constructor
  · rfl
  · intro h
    simp [process_ticket, ragAnswerE, h]

/-- Witness for C3: a generator that raises leaves an empty store empty and
surfaces the failure. -/
theorem ticket_c3_witness :
    process_ticket ⟨[]⟩ 0 "help" (.ok [⟨"d1", 9, "Reset steps."⟩]) (fun _ => .error ())
      = (.error (), ⟨[]⟩) :=
  (ticket_c3 ⟨[]⟩ 0 "help" (fun _ => .error ()) [⟨"d1", 9, "Reset steps."⟩]).2 rfl

/-- Claim C5 (history budgeting), confirmed against the spec-modelled
prompt builder: for any conversation history of 10 turns (4 older turns
followed by 6 recent ones), the built prompt's history section is the
summary of exactly the most recent 6 turns — turns 4-9, 0-indexed — and is
independent of the dropped turns 0-3. -/
theorem ticket_c5 (old rest : List ConversationTurn) (context query : String)
    (h4 : old.length = 4) (h6 : rest.length = 6) :
    recentTurns (old ++ rest) = rest ∧
    user_prompt_with_history context query (some (old ++ rest)) =
      build_user_prompt context query (String.intercalate "\n" (rest.map formatTurn)) := by
  have hdrop : recentTurns (old ++ rest) = rest := by
    have hlen : (old ++ rest).length - 6 = old.length := by
      simp [List.length_append, h4, h6]
    rw [recentTurns, hlen]
    exact List.drop_left old rest
  refine ⟨hdrop, ?_⟩
  simp [user_prompt_with_history, build_conversation_summary, hdrop]

/-- Witness for C5: a concrete 10-turn history keeps turns 4-9 only. -/
theorem ticket_c5_witness :
    user_prompt_with_history "ctx" "q"
        (some ([⟨"user", "t0"⟩, ⟨"assistant", "t1"⟩, ⟨"user", "t2"⟩, ⟨"assistant", "t3"⟩] ++
          [⟨"user", "t4"⟩, ⟨"assistant", "t5"⟩, ⟨"user", "t6"⟩, ⟨"assistant", "t7"⟩,
           ⟨"user", "t8"⟩, ⟨"assistant", "t9"⟩])) =
      build_user_prompt "ctx" "q"
        (String.intercalate "\n"
          ([⟨"user", "t4"⟩, ⟨"assistant", "t5"⟩, ⟨"user", "t6"⟩, ⟨"assistant", "t7"⟩,
            ⟨"user", "t8"⟩, ⟨"assistant", "t9"⟩].map formatTurn)) :=
  (ticket_c5 [⟨"user", "t0"⟩, ⟨"assistant", "t1"⟩, ⟨"user", "t2"⟩, ⟨"assistant", "t3"⟩]
    [⟨"user", "t4"⟩, ⟨"assistant", "t5"⟩, ⟨"user", "t6"⟩, ⟨"assistant", "t7"⟩,
     ⟨"user", "t8"⟩, ⟨"assistant", "t9"⟩] "ctx" "q" rfl rfl).2

/-- Claim C6, counterexample: a retrieved passage whose content is empty is
not rendered at all — the claim's rendering (a labeled block for EVERY
passage) produces `"Document 1:\n"`, while the code's context is empty. -/
theorem ticket_c6_counterexample :
    contextOf [⟨"d1", 0, ""⟩] = "" ∧
    String.intercalate "\n\n" (specContextBlocks [⟨"d1", 0, ""⟩]) = "Document 1:\n" ∧
    contextOf [⟨"d1", 0, ""⟩] ≠ String.intercalate "\n\n" (specContextBlocks [⟨"d1", 0, ""⟩]) := by
  refine ⟨rfl, rfl, ?_⟩
  decide

/-- The context-chunk loop, characterised: chunks are the labeled blocks of
the passages with non-empty content, each labeled with its 1-based position
in the full retrieved sequence (counting skipped passages), in order. -/
theorem contextChunksAux_eq (ms : List MatchRec) (n : Nat) :
    contextChunksAux n ms =
      (ms.enumFrom n).filterMap (fun p =>
        if p.2.text = "" then none
        else some ("Document " ++ toString p.1 ++ ":\n" ++ p.2.text)) := by
  induction ms generalizing n with
  | nil => rfl
  | cons m rest ih =>
    by_cases hm : m.text = "" <;>
      simp [contextChunksAux, List.enumFrom, List.filterMap_cons, hm, ih (n + 1)]

/-- Claim C6 (amended): the prompt's context renders each passage WITH
NON-EMPTY CONTENT as a labeled block `Document i:` followed by its content,
where `i` is the passage's 1-based position in the retrieval order (skipped
empty passages still consume their position number); blocks are joined by
blank lines in the order the retriever returned them, with no re-ranking;
passages with empty (or missing) content are dropped silently. -/
theorem ticket_c6_amended (ms : List MatchRec) :
    contextOf ms =
      String.intercalate "\n\n"
        ((ms.enumFrom 1).filterMap (fun p =>
          if p.2.text = "" then none
          else some ("Document " ++ toString p.1 ++ ":\n" ++ p.2.text))) := by
  rw [contextOf, contextChunks, contextChunksAux_eq]

/-- Looking up a fresh id in a store extended with a row carrying that id
finds the new row. -/
theorem find_fresh_row (rows : List TicketRow) (row : TicketRow)
    (h : ∀ r ∈ rows, r.id ≠ row.id) :
    (rows ++ [row]).find? (fun r => r.id == row.id) = some row := by
  induction rows with
  | nil => simp [List.find?]
  | cons a as ih =>
    have ha : (a.id == row.id) = false := by
      simp only [beq_eq_false_iff_ne]
      exact h a (List.mem_cons_self a as)
    simp only [List.cons_append, List.find?, ha]
    exact ih (fun r hr => h r (List.mem_cons_of_mem a hr))

/-- Claim C7 (tag serialization), confirmed: a create with `tags=[]`
persists the empty string, `tags=None` persists SQL NULL, and
`tags=["a","b"]` persists `"a,b"`; after a round-trip through the store
(create, then `get_ticket` of the new id) the created row is recovered
verbatim, and the three persisted values are pairwise distinct. -/
theorem ticket_c7 (db : Store) (now : Nat) (text : String)
    (action reply reason hl : Option String)
    (h : ∀ r ∈ db.rows, r.id ≠ db.rows.length + 1) :
    ((create_ticket db now text action reply (some []) reason hl).map (fun p => p.1.tags)
      = .ok (some "")) ∧
    ((create_ticket db now text action reply none reason hl).map (fun p => p.1.tags)
      = .ok none) ∧
    ((create_ticket db now text action reply (some [Json.str "a", Json.str "b"]) reason hl).map
        (fun p => p.1.tags) = .ok (some "a,b")) ∧
    (∀ tags row db', create_ticket db now text action reply tags reason hl = .ok (row, db') →
      get_ticket db' row.id = some row) ∧
    ((some "" : Option String) ≠ none ∧ (some "" : Option String) ≠ some "a,b" ∧
      (none : Option String) ≠ some "a,b") := by
  refine ⟨rfl, rfl, rfl, ?_, by simp, by simp, by simp⟩
  intro tags row db' hc
  have hrow : row.id = db.rows.length + 1 ∧ db'.rows = db.rows ++ [row] := by
    cases tags with
    | none =>
      simp only [create_ticket] at hc
      cases hc
      exact ⟨rfl, rfl⟩
    | some ts =>
      simp only [create_ticket] at hc
      cases hps : pyStrList ts with
      | error e => rw [hps] at hc; cases hc
      | ok ss =>
        rw [hps] at hc
        cases hc
        exact ⟨rfl, rfl⟩
  rw [get_ticket, hrow.2]
  exact find_fresh_row db.rows row (fun r hr => by rw [hrow.1]; exact h r hr)

/-- Witness for C7: the three creates against the empty store, and the
round-trip for the comma-joined case. -/
theorem ticket_c7_witness :
    ((create_ticket ⟨[]⟩ 0 "t" none none (some []) none none).map (fun p => p.1.tags)
      = .ok (some "")) ∧
    ((create_ticket ⟨[]⟩ 0 "t" none none none none none).map (fun p => p.1.tags)
      = .ok none) ∧
    ((create_ticket ⟨[]⟩ 0 "t" none none (some [Json.str "a", Json.str "b"]) none none).map
        (fun p => p.1.tags) = .ok (some "a,b")) := by
  have H := ticket_c7 ⟨[]⟩ 0 "t" none none none none (by simp)
  exact ⟨H.1, H.2.1, H.2.2.1⟩

/-- Claim C8, counterexample: the empty ticket text is accepted by the
ticket endpoint's request schema (no validator on `ticket`), and the
pipeline then runs — with a retriever and degraded generator supplied, a
ticket row is created for the blank text instead of the request being
rejected before retrieval. -/
theorem ticket_c8_counterexample :
    ticket_request_validate "" = .ok "" ∧
    pyStrip "" = "" ∧
    (process_ticket ⟨[]⟩ 0 "" (.ok []) (fun _ => .ok ("nope", .error ()))).2.rows.length = 1 := by
  exact ⟨rfl, rfl, rfl⟩

/-- Claim C8 (amended): only the RAG query text is validated at the
boundary — empty or whitespace-only query text is rejected by
`RagQueryRequest` before any retrieval (and an accepted query is returned
trimmed); the ticket endpoint's `TicketAgentRequest` declares no such
validator, so any ticket text, blank included, is accepted unchanged and
flows into the pipeline. -/
theorem ticket_c8_amended (v t : String) :
    (pyStrip v = "" →
      query_must_not_be_empty v = .error "Query cannot be empty or whitespace") ∧
    (pyStrip v ≠ "" → query_must_not_be_empty v = .ok (pyStrip v)) ∧
    ticket_request_validate t = .ok t := by
  refine ⟨?_, ?_, rfl⟩
  · intro h
    simp [query_must_not_be_empty, h]
  · intro h
    have hv : v ≠ "" := by
      intro he
      subst he
      exact h rfl
    simp [query_must_not_be_empty, h, hv]

/-- Witness for C8 (amended): a whitespace-only query is rejected, a
padded query is accepted trimmed, and a blank ticket is accepted. -/
theorem ticket_c8_witness :
    query_must_not_be_empty "  " = .error "Query cannot be empty or whitespace" ∧
    query_must_not_be_empty " ab " = .ok (pyStrip " ab ") ∧
    ticket_request_validate " " = .ok " " :=
  ⟨(ticket_c8_amended "  " " ").1 (by decide),
   (ticket_c8_amended " ab " " ").2.1 (by decide),
   (ticket_c8_amended " ab " " ").2.2⟩

/-- Claim C9 (feedback frame), confirmed: for an existing ticket id the
feedback update returns the record with only `human_label` set to the
supplied label, every other field of every row (text, action, reply, tags,
reason, created_at, id) is unchanged, rows with a different id are entirely
unchanged, and the store keeps the same number of rows; for a nonexistent
id it returns `none` and leaves the store unchanged. -/
theorem ticket_c9 (db : Store) (tid : Nat) (label : String) :
    (get_ticket db tid = none → update_ticket_feedback db tid label = (none, db)) ∧
    (∀ t, get_ticket db tid = some t →
      (update_ticket_feedback db tid label).1 = some { t with human_label := some label } ∧
      (update_ticket_feedback db tid label).2.rows.length = db.rows.length ∧
      (∀ i (hi : i < db.rows.length)
          (hi' : i < (update_ticket_feedback db tid label).2.rows.length),
        ((update_ticket_feedback db tid label).2.rows[i].id = db.rows[i].id ∧
         (update_ticket_feedback db tid label).2.rows[i].text = db.rows[i].text ∧
         (update_ticket_feedback db tid label).2.rows[i].action = db.rows[i].action ∧
         (update_ticket_feedback db tid label).2.rows[i].reply = db.rows[i].reply ∧
         (update_ticket_feedback db tid label).2.rows[i].tags = db.rows[i].tags ∧
         (update_ticket_feedback db tid label).2.rows[i].reason = db.rows[i].reason ∧
         (update_ticket_feedback db tid label).2.rows[i].created_at = db.rows[i].created_at) ∧
        (db.rows[i].id ≠ tid → (update_ticket_feedback db tid label).2.rows[i] = db.rows[i]) ∧
        (db.rows[i].id = tid →
          (update_ticket_feedback db tid label).2.rows[i].human_label = some label))) := by
  constructor
  · intro h
    simp [update_ticket_feedback, h]
  · intro t ht
    refine ⟨by simp [update_ticket_feedback, ht], by simp [update_ticket_feedback, ht], ?_⟩
    intro i hi hi'
    simp only [update_ticket_feedback, ht, List.getElem_map]
    by_cases hid : db.rows[i].id = tid
    · simp [hid]
    · simp [hid]

/-- Witness for C9: a miss leaves the empty store unchanged; a hit sets
only the human label of the stored row. -/
theorem ticket_c9_witness :
    update_ticket_feedback ⟨[]⟩ 7 "correct" = (none, ⟨[]⟩) ∧
    (update_ticket_feedback ⟨[⟨1, "txt", some "reply", some "ok", some "", some "why", 5, none⟩]⟩
        1 "correct").1
      = some ⟨1, "txt", some "reply", some "ok", some "", some "why", 5, some "correct"⟩ :=
  ⟨(ticket_c9 ⟨[]⟩ 7 "correct").1 rfl,
   ((ticket_c9 ⟨[⟨1, "txt", some "reply", some "ok", some "", some "why", 5, none⟩]⟩
      1 "correct").2 ⟨1, "txt", some "reply", some "ok", some "", some "why", 5, none⟩ rfl).1⟩

/-- A successful create with explicit tags joined the tag list and appended
exactly one row. -/
theorem create_ticket_ok_shape (db : Store) (now : Nat) (text : String)
    (action reply : Option String) (ts : List Json) (reason hl : Option String)
    (row : TicketRow) (db' : Store)
    (h : create_ticket db now text action reply (some ts) reason hl = .ok (row, db')) :
    ∃ ss, pyStrList ts = .ok ss ∧ row.tags = some (String.intercalate "," ss) ∧
      db'.rows = db.rows ++ [row] := by
  simp only [create_ticket] at h
  cases hps : pyStrList ts with
  | error e => rw [hps] at h; cases h
  | ok ss =>
    rw [hps] at h
    cases h
    exact ⟨ss, rfl, rfl, rfl⟩

/-- Claim C10 (implicit invariant), confirmed: whenever `process_ticket`
succeeds, the one row it created has a non-null tags column — the
orchestrator coerces any non-list tags value to `[]` and always passes a
list to `create_ticket`, whose join then produces a string, never NULL;
in particular, when the ticket's tag list is empty the persisted value is
the empty string, so the store's null-tags case is unreachable through the
orchestrator. -/
theorem ticket_c10 (db : Store) (now : Nat) (text : String)
    (mo : Except Unit (List MatchRec))
    (gen : String → Except Unit (String × Except Unit Json))
    (res : ProcessResult) (db' : Store)
    (h : process_ticket db now text mo gen = (.ok res, db')) :
    ∃ row, db'.rows = db.rows ++ [row] ∧ (∃ s, row.tags = some s) ∧
      (res.tags = [] → row.tags = some "") := by
  simp only [process_ticket] at h
  cases hr : ragAnswerE mo gen text with
  | error e =>
    simp only [hr] at h
    injection h with h1 h2
    cases h1
  | ok rag =>
    simp only [hr] at h
    cases hans : rag.answer <;> simp only [hans] at h <;>
      try (injection h with h1 h2; cases h1)
    rename_i answer
    cases hc : create_ticket db now text (some (decideAction answer).1)
        (if (decideAction answer).1 = "reply" then some answer else none)
        (some (match rag.tags with | .arr xs => xs | _ => []))
        (some (decideAction answer).2) none with
    | error e =>
      simp only [hc] at h
      injection h with h1 h2
      cases h1
    | ok p =>
      obtain ⟨row, db''⟩ := p
      simp only [hc] at h
      injection h with h1 h2
      injection h1 with h1
      subst h2
      subst h1
      obtain ⟨ss, hps, htags, hrows⟩ :=
        create_ticket_ok_shape db now text _ _ _ _ _ row db'' hc
      refine ⟨row, hrows, ⟨_, htags⟩, ?_⟩
      intro htg
      have htg' : (match rag.tags with | Json.arr xs => xs | _ => []) = [] := htg
      rw [htg'] at hps
      simp only [pyStrList] at hps
      injection hps with hss
      rw [← hss] at htags
      exact htags

/-- Witness for C10: a run whose degraded generation yields no tags creates
exactly one row whose tags column is the (non-null) empty string. -/
theorem ticket_c10_witness :
    ∃ row,
      (Store.mk
        [{ id := 1, text := "help", action := some "reply", reply := some "raw",
           tags := some "",
           reason := some "Generated reply using knowledge base context via RAG.",
           created_at := 7, human_label := none }]).rows
        = (Store.mk []).rows ++ [row] ∧
      (∃ s, row.tags = some s) ∧
      ((ProcessResult.mk 1 (some "reply") (some "raw") []
          (some "Generated reply using knowledge base context via RAG.")).tags = [] →
        row.tags = some "") :=
  ticket_c10 ⟨[]⟩ 7 "help" (.ok []) (fun _ => .ok ("raw", .error ()))
    (ProcessResult.mk 1 (some "reply") (some "raw") []
      (some "Generated reply using knowledge base context via RAG."))
    (Store.mk
      [{ id := 1, text := "help", action := some "reply", reply := some "raw",
         tags := some "",
         reason := some "Generated reply using knowledge base context via RAG.",
         created_at := 7, human_label := none }]) rfl

end SupportDesk
